import Mathlib

/-!
Shallow embedding of the opensesame-extension-sigmund bridge and session
protocol (websocket_server.py, dock_widget.py, sigmund.py,
opensesame_workspace.py, diff_dialog.py), together with theorems settling
the frozen claims about it.

Conventions: Python strings are Lean `String`s; Python `None` is `Option.none`
or `Json.null` depending on context; the multiprocessing queues are Lean
lists with the newest element last; calls into external libraries
(`json.loads`, `difflib.unified_diff`, the asyncio event loop, the Qt
dialog result, the workspace collaborator's side effects) are passed in as
explicit parameters standing for the value the library call returns.
-/

namespace Sigmund

/-- JSON values as decoded by Python `json.loads`.  `Json.null` doubles as
the Python value `None`, which is also what `json.loads` produces for a
JSON `null`. -/
inductive Json where
  | null
  | bool (b : Bool)
  | num (n : Int)
  | str (s : String)
  | arr (elems : List Json)
  | obj (fields : List (String × Json))

/-! ## Workspace manager: opensesame_workspace.py -/

/-- Accumulator recursion behind `splitlines`; the accumulator holds the
characters of the current line in reverse. -/
def splitlinesAux : List Char → List Char → List (List Char)
  | [], acc => if acc.isEmpty then [] else [acc.reverse]
  | '\r' :: '\n' :: rest, acc => acc.reverse :: splitlinesAux rest []
  | '\r' :: rest, acc => acc.reverse :: splitlinesAux rest []
  | '\n' :: rest, acc => acc.reverse :: splitlinesAux rest []
  | c :: rest, acc => splitlinesAux rest (c :: acc)

/-- Python `str.splitlines`, restricted to the line boundaries `\n`, `\r`
and `\r\n` (the exotic unicode boundaries Python also recognises play no
role in this code base). -/
def splitlines (s : String) : List String :=
  (splitlinesAux s.data []).map List.asString

/-- Python `str.startswith`, evaluated on the underlying character
lists (computationally transparent, unlike `String.startsWith`). -/
def startswith (s p : String) : Bool := List.isPrefixOf p.data s.data

/-- Embedding of `WorkspaceManager.strip_content` of opensesame_workspace.py:
`None` becomes the empty string, and otherwise the lines starting with
`# Important instructions:` are removed and the rest rejoined with `\n`. -/
def strip_content (content : Option String) : String :=
  match content with
  | none => ""
  | some c => String.intercalate "\n"
      ((splitlines c).filter (fun line => !(startswith line "# Important instructions:")))

/-- Python truthiness of a decoded JSON value (`if not content: ...`). -/
def Json.truthy : Json → Bool
  | Json.null => false
  | Json.bool b => b
  | Json.num n => n != 0
  | Json.str s => !s.isEmpty
  | Json.arr elems => !elems.isEmpty
  | Json.obj fields => !fields.isEmpty

/-- Python `==` between a decoded JSON value and a Python value that is
either `None` or a string (the manager's `self.content`). -/
def pyEqOptStr : Json → Option String → Bool
  | Json.null, none => true
  | Json.str a, some b => a == b
  | _, _ => false

/-- Python `==` between a decoded JSON value and a Python string. -/
def pyEqStr : Json → String → Bool
  | Json.str a, b => a == b
  | _, _ => false

/-- Embedding of `opensesame_workspace.WorkspaceManager`: `content` and
`language` are the baseline snapshot `self.content` / `self.language`
(`None` at init).  `get_result` stands for the pair that `get()` computes
from the item store (`self._sigmund.item_store`, GUI state outside the
embedding) and returns. -/
structure WorkspaceManager where
  content : Option String
  language : Option String
  get_result : String × String

/-- Embedding of `WorkspaceManager.has_changed` of opensesame_workspace.py:
falsy content never counts as changed; content equal to the verbatim
baseline or to the stripped baseline does not count as changed either. -/
def has_changed (wm : WorkspaceManager) (content : Json) (language : Json) : Bool :=
  if !content.truthy then false
  else if pyEqOptStr content wm.content || pyEqStr content (strip_content wm.content) then
    false
  else true

/-! ## Socket bridge: websocket_server.py -/

/-- State owned by the websocket bridge process: the module-level flag
`client_connected` of websocket_server.py together with the contents of
`to_main_queue` (the inbound queue, newest element last). -/
structure BridgeState where
  client_connected : Bool
  inbound : List String
deriving DecidableEq

/-- Outcome of `await echo(...)`: either it returns normally (one of the
two duplex loops finished and the other was cancelled) or it raises. -/
inductive EchoOutcome where
  | finished
  | raised
deriving DecidableEq

/-- Whether `server_handler` served the incoming websocket or refused it by
closing it immediately. -/
inductive HandlerResult where
  | refused
  | served
deriving DecidableEq

/-- Embedding of `websocket_server.server_handler`.  If a client is already
connected the new websocket is closed and the handler returns at once;
otherwise the slot is occupied, `CLIENT_CONNECTED` is pushed, `echo` runs,
and the `finally` block releases the slot and pushes `CLIENT_DISCONNECTED`
whether `echo` returned or raised.  The returned `Bool` records whether an
exception propagated out of the handler. -/
def server_handler (st : BridgeState) (echoRes : EchoOutcome) :
    BridgeState × HandlerResult × Bool :=
  if st.client_connected then
    (st, HandlerResult.refused, false)
  else
    let st1 : BridgeState :=
      { client_connected := true, inbound := st.inbound ++ ["CLIENT_CONNECTED"] }
    let st2 : BridgeState :=
      { client_connected := false, inbound := st1.inbound ++ ["CLIENT_DISCONNECTED"] }
    match echoRes with
    | EchoOutcome.finished => (st2, HandlerResult.served, false)
    | EchoOutcome.raised => (st2, HandlerResult.served, true)

/-- Behaviour of the body of `websocket_server.start_server`'s `try` block:
either the listener is set up and `loop.run_forever()` runs forever (nothing
in the bridge process ever calls `loop.stop()`, so `run_forever` cannot
return), or some exception is raised while setting up or running the
listener. -/
inductive ServerRun where
  | runsForever
  | raises
deriving DecidableEq

/-- Possible outcomes of a call to `start_server`, with the final contents
of the inbound queue: a normal return (never produced), divergence inside
`run_forever`, or process termination through `sys.exit`. -/
inductive StartOutcome where
  | returned (inbound : List String)
  | diverged (inbound : List String)
  | exited (code : Nat) (inbound : List String)
deriving DecidableEq

/-- Whether a `StartOutcome` is a normal return. -/
def StartOutcome.isReturned : StartOutcome → Bool
  | StartOutcome.returned _ => true
  | _ => false

/-- Embedding of `websocket_server.start_server`: on any exception inside
the `try` block it pushes `FAILED_TO_START` onto the inbound queue and
calls `sys.exit(1)`; otherwise it stays inside `loop.run_forever()`. -/
def start_server (inbound : List String) (run : ServerRun) : StartOutcome :=
  match run with
  | ServerRun.runsForever => StartOutcome.diverged inbound
  | ServerRun.raises => StartOutcome.exited 1 (inbound ++ ["FAILED_TO_START"])

/-! ## Session controller: dock_widget.py -/

/-- Session states of the controller state machine. -/
inductive SessionState where
  | not_listening
  | listening
  | connected
  | failed
deriving DecidableEq

/-- Observable chat-widget state: whether input is enabled
(`setEnabled`) and the `(kind, text)` pairs appended via `append_message`,
newest last. -/
structure ChatWidget where
  enabled : Bool
  messages : List (String × Json)

/-- State of `SigmundDockWidget`.  `server_process` records whether
`self._server_process is not None`; the queues hold their current contents
(newest last), with `none` for a queue that does not exist yet; outbound
envelopes are kept as decoded values (the `json.dumps` serialisation is
omitted); `retry` is `self._retry` and `sigmund_token` is
`cfg.sigmund_token`. -/
structure DockState where
  state : SessionState
  server_process : Bool
  to_main_queue : Option (List String)
  to_server_queue : Option (List Json)
  workspace_manager : Option WorkspaceManager
  chat_widget : Option ChatWidget
  retry : Nat
  sigmund_token : Option Json
  poll_timer : Bool

/-- Embedding of `SigmundDockWidget._update_state`: a no-op when the state
is unchanged; otherwise the state is set and the returned flag records that
`server_state_changed` was emitted (and the UI refreshed). -/
def update_state (st : DockState) (new_state : SessionState) : DockState × Bool :=
  if new_state = st.state then (st, false)
  else ({ st with state := new_state }, true)

/-- Embedding of `SigmundDockWidget.send_user_message`.  The
`workspace_content` and `workspace_language` arguments are Python values
with `Json.null` standing for `None` (the declared default).  A no-op when
`text` is empty or `self._to_server_queue` is `None`; otherwise an omitted
workspace content is fetched from the collaborator's `get()`, `self._retry`
is set, the chat input is disabled when a chat widget exists, and exactly
one `user_message` envelope is enqueued. -/
def send_user_message (st : DockState) (text : String)
    (workspace_content workspace_language : Json) (retry : Nat) : DockState :=
  if text = "" ∨ st.to_server_queue.isNone then st
  else
    let wcwl :=
      match workspace_content, st.workspace_manager with
      | Json.null, some wm => (Json.str wm.get_result.1, Json.str wm.get_result.2)
      | wc, _ => (wc, workspace_language)
    let st := { st with retry := retry }
    let st := { st with
      chat_widget := st.chat_widget.map
        (fun (cw : ChatWidget) => { cw with enabled := false }) }
    let envelope := Json.obj
      [("action", Json.str "user_message"),
       ("message", Json.str text),
       ("workspace_content", wcwl.1),
       ("workspace_language", wcwl.2)]
    { st with to_server_queue := st.to_server_queue.map (fun q => q ++ [envelope]) }

/-- Outcome of constructing and starting the bridge `Process`. -/
inductive SpawnOutcome where
  | ok
  | fail
deriving DecidableEq

/-- Observable side effects of one `start_server` call on the dock widget:
how many bridge processes were spawned, how many fresh queue pairs were
created, and how many `server_state_changed` transitions were emitted. -/
structure StartEffects where
  processes_spawned : Nat
  queue_pairs_created : Nat
  transitions : Nat
deriving DecidableEq

/-- Embedding of `SigmundDockWidget.start_server`: a no-op when the state
is already `listening` or `connected`; otherwise a fresh queue pair is
created, the bridge process is spawned, and depending on the spawn outcome
the state moves to `failed`, or to `listening` with the poll timer
started. -/
def dock_start_server (st : DockState) (spawn : SpawnOutcome) : DockState × StartEffects :=
  if st.state = SessionState.listening ∨ st.state = SessionState.connected then
    (st, ⟨0, 0, 0⟩)
  else
    let st := { st with to_main_queue := some [], to_server_queue := some [] }
    match spawn with
    | SpawnOutcome.fail =>
      let r := update_state st SessionState.failed
      (r.1, ⟨0, 1, if r.2 then 1 else 0⟩)
    | SpawnOutcome.ok =>
      let st := { st with server_process := true }
      let r := update_state st SessionState.listening
      ({ r.1 with poll_timer := true }, ⟨1, 1, if r.2 then 1 else 0⟩)

/-! ## Diff dialog: diff_dialog.py -/

/-- Filter applied by `DiffDialog.__init__` to the lines produced by
`difflib.unified_diff(old.splitlines(), new.splitlines(), fromfile =
"Original", tofile = "Updated", lineterm = "")`: every line starting with
`---` or `+++` is skipped.  The diff lines themselves are computed by the
Python library and enter the embedding as an explicit list. -/
def unified_diff_filtered (diff_lines : List String) : List String :=
  diff_lines.filter
    (fun line => !(startswith line "---") && !(startswith line "+++"))

/-- Text of the diff shown by `DiffDialog`: the kept lines joined with
newlines. -/
def diff_text (diff_lines : List String) : String :=
  String.intercalate "\n" (unified_diff_filtered diff_lines)

/-- Text that `DiffDialog` puts into its read-only view: the filtered diff,
or a placeholder when nothing beyond the suppressed lines remains. -/
def diff_view_text (diff_lines : List String) : String :=
  if !(diff_text diff_lines).trim.isEmpty then diff_text diff_lines
  else "No changes suggested."

/-! ## Message dispatch: dock_widget.py -/

/-- Arguments with which a `DiffDialog` was constructed while handling an
`ai_message`: the agent message and the two stripped contents whose
unified diff it displays. -/
structure DialogCall where
  message : Json
  old_content : String
  new_content : String

/-- Side effects of handling one inbound item that are not part of the
controller state: how many errors were logged, which diff dialogs were
shown, and which calls reached the workspace collaborator's `set`. -/
structure Effects where
  errors_logged : Nat
  dialogs : List DialogCall
  set_calls : List (Json × Json)

/-- Empty side effects. -/
def Effects.nil : Effects := ⟨0, [], []⟩

/-- Concatenation of side effects of consecutive handler runs. -/
def Effects.app (e1 e2 : Effects) : Effects :=
  ⟨e1.errors_logged + e2.errors_logged, e1.dialogs ++ e2.dialogs,
   e1.set_calls ++ e2.set_calls⟩

/-- Results of the external calls made while handling one `ai_message`:
whether `DiffDialog.exec()` returned `Accepted`, and whether the workspace
collaborator's `set` raised (`some tb` carries the formatted traceback). -/
structure Env where
  dialog_accepted : Bool
  set_raises : Option String

/-- Error text built in the `except` branch of the `ai_message` handler
around the formatted traceback (the f-string of dock_widget.py). -/
def error_user_message (tb : String) : String :=
  "The following error occurred when I tried to use the workspace content:\n" ++
  "                        \n```\n" ++ tb ++ "\n```\n"

/-- Terminal agent message that the budget-exhausted branch tries to
append.  sigmund.py appends it successfully (that module binds the
translation function `_` via `translation_context`); dock_widget.py never
binds `_`, so evaluating `_('Maximum number of attempts exceeded.')` on
line 260 raises `NameError` before anything is appended. -/
def max_attempts_msg : String := "Maximum number of attempts exceeded."

/-- Python `dict.get(key, default)` on the fields of a decoded JSON
object. -/
def dictGet (fields : List (String × Json)) (key : String) (dflt : Json) : Json :=
  match fields.find? (fun p => p.1 == key) with
  | some p => p.2
  | none => dflt

/-- Append one `(kind, text)` pair to the chat widget
(`self.chat_widget.append_message(kind, text)`). -/
def append_chat (st : DockState) (kind : String) (text : Json) : DockState :=
  { st with
    chat_widget := st.chat_widget.map
      (fun (cw : ChatWidget) => { cw with messages := cw.messages ++ [(kind, text)] }) }

/-- Set the enabled flag of the chat widget
(`self.chat_widget.setEnabled(b)`). -/
def set_chat_enabled (st : DockState) (b : Bool) : DockState :=
  { st with
    chat_widget := st.chat_widget.map
      (fun (cw : ChatWidget) => { cw with enabled := b }) }

/-- Clear the rendered conversation
(`self.chat_widget.clear_messages()`). -/
def clear_chat (st : DockState) : DockState :=
  { st with
    chat_widget := st.chat_widget.map
      (fun (cw : ChatWidget) => { cw with messages := [] }) }

/-- Embedding of `SigmundDockWidget._request_token`. -/
def request_token (st : DockState) : DockState :=
  { st with
    to_server_queue := st.to_server_queue.map
      (fun q => q ++ [Json.obj [("action", Json.str "get_token")]]) }

/-- Python `self.strip_content(content)` applied to a decoded JSON value:
`None` and strings are what the protocol delivers; any other value has no
`splitlines` method, so the call raises (`none`). -/
def strip_contentJ : Json → Option String
  | Json.null => some (strip_content none)
  | Json.str s => some (strip_content (some s))
  | _ => none

/-- Embedding of `SigmundDockWidget._on_message_received`.  `data` is the
decoded JSON payload and `env` supplies the results of the external calls.
Returns the new controller state, the side effects, and a flag that is
`true` exactly when an exception propagated out of the handler (mutations
made before the raise are kept, as in Python).  The very first statement,
`data.get("action", None)`, raises `AttributeError` when `data` is not a
dict; the baseline passed to the diff dialog
(`self._workspace_manager._content` in the source) is the manager's
baseline snapshot field.  In the budget-exhausted branch the terminal
append evaluates the unbound name `_`, so it raises `NameError` with
nothing appended. -/
def on_message_received (st : DockState) (data : Json) (env : Env) :
    DockState × Effects × Bool :=
  match data with
  | Json.obj fields =>
    let action := dictGet fields "action" Json.null
    match st.chat_widget with
    | none => (st, Effects.nil, false)
    | some _ =>
      if pyEqStr action "token" then
        ({ st with sigmund_token := some (dictGet fields "message" (Json.str "")) },
         Effects.nil, false)
      else if pyEqStr action "clear_messages" then
        (clear_chat st, Effects.nil, false)
      else if pyEqStr action "cancel_message" then
        (set_chat_enabled st true, Effects.nil, false)
      else if pyEqStr action "user_message" then
        (append_chat st "user_message" (dictGet fields "message" (Json.str "")),
         Effects.nil, false)
      else if pyEqStr action "ai_message" then
        let message_text := dictGet fields "message" (Json.str "")
        let st := append_chat st "ai_message" message_text
        let st := set_chat_enabled st true
        let workspace_content := dictGet fields "workspace_content" (Json.str "")
        let workspace_language := dictGet fields "workspace_language" (Json.str "markdown")
        match st.workspace_manager with
        | none => (st, Effects.nil, false)
        | some wm =>
          if has_changed wm workspace_content workspace_language then
            match strip_contentJ workspace_content with
            | none => (st, Effects.nil, true)
            | some new_stripped =>
              let dialogs := [DialogCall.mk message_text (strip_content wm.content)
                new_stripped]
              if env.dialog_accepted then
                let set_calls := [(workspace_content, workspace_language)]
                match env.set_raises with
                | none => (st, ⟨0, dialogs, set_calls⟩, false)
                | some tb =>
                  let err := error_user_message tb
                  let st := append_chat st "user_message" (Json.str err)
                  if st.retry = 0 then
                    -- `_('Maximum number of attempts exceeded.')` raises
                    -- NameError: `_` is unbound in dock_widget.py, so the
                    -- terminal message is never appended and the exception
                    -- escapes
                    (st, ⟨0, dialogs, set_calls⟩, true)
                  else
                    (send_user_message st err workspace_content workspace_language
                      (st.retry - 1),
                     ⟨0, dialogs, set_calls⟩, false)
              else (st, ⟨0, dialogs, []⟩, false)
          else (st, Effects.nil, false)
      else (st, ⟨1, [], []⟩, false)
  | _ => (st, Effects.nil, true)

/-- Result of `json.loads` on a raw inbound string: a decode failure or a
decoded value. -/
inductive ParseOutcome where
  | decodeError
  | ok (j : Json)

/-- Embedding of `SigmundDockWidget._handle_incoming_raw` for one raw
inbound string.  `parsed` stands for the result of `json.loads raw`,
consulted only in the final branch.  `_poll_server_queue` wraps this call
in no `try`, so a `true` exception flag here is an exception escaping the
poll handler. -/
def handle_incoming_raw (st : DockState) (raw : String) (parsed : ParseOutcome)
    (env : Env) : DockState × Effects × Bool :=
  if startswith raw "[DEBUG]" then (st, Effects.nil, false)
  else if startswith raw "FAILED_TO_START" then
    ((update_state st SessionState.failed).1, Effects.nil, false)
  else if raw == "CLIENT_CONNECTED" then
    let st := (update_state st SessionState.connected).1
    let st := clear_chat st
    (request_token st, Effects.nil, false)
  else if raw == "CLIENT_DISCONNECTED" then
    (if st.server_process then (update_state st SessionState.listening).1 else st,
     Effects.nil, false)
  else
    match parsed with
    | ParseOutcome.decodeError => (st, ⟨1, [], []⟩, false)
    | ParseOutcome.ok data => on_message_received st data env

/-- Action classification performed by `Sigmund._handle_incoming_message`
of sigmund.py (the older controller variant, lines 192-200): a decode
failure or a payload that is not a dict leaves `action = None`, which
matches none of the recognised actions and is therefore only logged by the
final `else` branch. -/
def sigmund_classify_action (parsed : ParseOutcome) : Json :=
  match parsed with
  | ParseOutcome.decodeError => Json.null
  | ParseOutcome.ok (Json.obj fields) => dictGet fields "action" Json.null
  | ParseOutcome.ok _ => Json.null

/-- Inbound `ai_message` envelope as decoded JSON. -/
def ai_envelope (message workspace_content workspace_language : Json) : Json :=
  Json.obj
    [("action", Json.str "ai_message"),
     ("message", message),
     ("workspace_content", workspace_content),
     ("workspace_language", workspace_language)]

/-- Predicate picking out the terminal agent message of the retry loop
among the appended chat messages. -/
def is_terminal_msg : String × Json → Bool
  | (kind, Json.str s) => kind == "ai_message" && s == max_attempts_msg
  | _ => false

/-- Run of the bounded retry loop: every step handles one inbound
`ai_message` under the environment `env` (in the retry theorem: diff
accepted, `set` raising each time, the agent replying to each resubmitted
error report with the same proposal).  `fuel` bounds the number of handled
messages; the retry theorem instantiates it with the retry budget, so that
the run covers the budget-exhausting message as its last step.  The final
`Bool` records whether an exception escaped the poll handler during the
run. -/
def failureRun (st : DockState) (data : Json) (env : Env) :
    Nat → DockState × Effects × Bool
  | 0 => on_message_received st data env
  | fuel + 1 =>
    let r := on_message_received st data env
    let rest := failureRun r.1 data env fuel
    (rest.1, Effects.app r.2.1 rest.2.1, r.2.2 || rest.2.2)

/-- Chat messages appended during `failureRun`: every cycle appends the
agent message and the error report; the budget-exhausted final cycle
appends nothing further, because the terminal append raises `NameError`
(`_` is unbound in dock_widget.py) before it can run. -/
def failure_chat_trace (m : Json) (err : String) : Nat → List (String × Json)
  | 0 => [("ai_message", m), ("user_message", Json.str err)]
  | k + 1 => ("ai_message", m) :: ("user_message", Json.str err) ::
      failure_chat_trace m err k

/-- Envelope enqueued by one automatic resubmission of the retry loop:
the `user_message` built by `send_user_message` from the error report and
the proposed workspace content and language. -/
def resub_envelope (err : String) (wc wl : Json) : Json :=
  Json.obj
    [("action", Json.str "user_message"),
     ("message", Json.str err),
     ("workspace_content", wc),
     ("workspace_language", wl)]

/-- Sample workspace manager used by concrete witnesses. -/
def wmSample : WorkspaceManager :=
  ⟨some "print(1)", some "python", ("print(1)", "python")⟩

/-- Sample chat widget used by concrete witnesses. -/
def cwSample : ChatWidget := ⟨true, []⟩

/-- Sample connected dock state used by concrete witnesses. -/
def dockSample : DockState :=
  ⟨SessionState.connected, true, some [], some [], some wmSample, some cwSample,
   1, none, true⟩

end Sigmund

namespace Sigmund

/-! ## Theorems about the socket bridge -/

/-- C2: whenever the connection slot is occupied, `server_handler` closes
the new connection and returns immediately: the bridge state (slot and
inbound queue) is unchanged, no exception escapes, and in particular no
`CLIENT_CONNECTED` or `CLIENT_DISCONNECTED` token is pushed. -/
theorem C2_second_connection_refused (st : BridgeState) (echoRes : EchoOutcome)
    (h : st.client_connected = true) :
    server_handler st echoRes = (st, HandlerResult.refused, false) := by
  simp [server_handler, h]

/-- Witness for C2 at a concrete occupied bridge state. -/
theorem C2_second_connection_refused_witness :
    server_handler ⟨true, ["CLIENT_CONNECTED"]⟩ EchoOutcome.finished
      = (⟨true, ["CLIENT_CONNECTED"]⟩, HandlerResult.refused, false) :=
  C2_second_connection_refused ⟨true, ["CLIENT_CONNECTED"]⟩ EchoOutcome.finished rfl

/-- C5: for every connection accepted into the slot, whether the duplex
relay `echo` returns or raises, the slot is released and the strings pushed
onto the inbound queue for that connection are exactly `CLIENT_CONNECTED`
followed by `CLIENT_DISCONNECTED`; in particular `CLIENT_DISCONNECTED` is
pushed exactly once. -/
theorem C5_disconnect_pushed_once (st : BridgeState) (echoRes : EchoOutcome)
    (h : st.client_connected = false) :
    (server_handler st echoRes).1.client_connected = false ∧
    (server_handler st echoRes).1.inbound
      = st.inbound ++ ["CLIENT_CONNECTED", "CLIENT_DISCONNECTED"] ∧
    ((server_handler st echoRes).1.inbound.drop st.inbound.length).count
      "CLIENT_DISCONNECTED" = 1 := by
  cases echoRes <;> simp [server_handler, h, List.count_cons]

/-- Witness for C5 at a concrete accepted connection. -/
theorem C5_disconnect_pushed_once_witness :
    (server_handler ⟨false, []⟩ EchoOutcome.raised).1.client_connected = false ∧
    (server_handler ⟨false, []⟩ EchoOutcome.raised).1.inbound
      = [] ++ ["CLIENT_CONNECTED", "CLIENT_DISCONNECTED"] ∧
    ((server_handler ⟨false, []⟩ EchoOutcome.raised).1.inbound.drop
      ([] : List String).length).count "CLIENT_DISCONNECTED" = 1 :=
  C5_disconnect_pushed_once ⟨false, []⟩ EchoOutcome.raised rfl

/-- C6: `start_server` never returns normally; when anything inside its
`try` block raises it exits the process with code 1 after appending exactly
one `FAILED_TO_START` token (and nothing else) to the inbound queue, and
when the listener runs it diverges inside `run_forever` without emitting
any startup-failure signal. -/
theorem C6_start_server_failure_signal (inbound : List String) (run : ServerRun) :
    (start_server inbound run).isReturned = false ∧
    start_server inbound ServerRun.raises
      = StartOutcome.exited 1 (inbound ++ ["FAILED_TO_START"]) ∧
    start_server inbound ServerRun.runsForever = StartOutcome.diverged inbound := by
  refine ⟨?_, rfl, rfl⟩
  cases run <;> rfl

/-! ## Theorems about the session controller -/

/-- C4: `send_user_message` is a no-op when the text is empty or no
connection (queue to the bridge) exists; otherwise, with the workspace
arguments omitted (`None`), it fetches content and language from the
workspace collaborator's `get()`, records the retry budget, disables the
chat input, and enqueues exactly one `user_message` envelope carrying the
text, the workspace content and the workspace language. -/
theorem C4_send_user_message_spec :
    (∀ st text wc wl r, (text = "" ∨ st.to_server_queue = none) →
      send_user_message st text wc wl r = st) ∧
    (∀ st q wm cw text wl r, st.to_server_queue = some q →
      st.workspace_manager = some wm → st.chat_widget = some cw → text ≠ "" →
      send_user_message st text Json.null wl r =
        { st with retry := r,
                  chat_widget := some { cw with enabled := false },
                  to_server_queue := some (q ++ [Json.obj
                    [("action", Json.str "user_message"),
                     ("message", Json.str text),
                     ("workspace_content", Json.str wm.get_result.1),
                     ("workspace_language", Json.str wm.get_result.2)]]) }) := by
  constructor
  · intro st text wc wl r h
    rcases h with h | h
    · subst h
      rfl
    · simp [send_user_message, h]
  · intro st q wm cw text wl r hq hwm hcw htext
    rcases st with ⟨state, proc, mq, sq, wmgr, cwf, rt, tok, pt⟩
    simp only at hq hwm hcw
    subst hq hwm hcw
    simp [send_user_message, htext]

/-- Witness for C4 at concrete inputs: an empty text is dropped, and a
non-empty text with omitted workspace fields is enqueued with the fetched
workspace snapshot. -/
theorem C4_send_user_message_spec_witness :
    send_user_message dockSample "" Json.null Json.null 1 = dockSample ∧
    send_user_message dockSample "hi" Json.null Json.null 2 =
      { dockSample with
          retry := 2,
          chat_widget := some { cwSample with enabled := false },
          to_server_queue := some [Json.obj
            [("action", Json.str "user_message"),
             ("message", Json.str "hi"),
             ("workspace_content", Json.str "print(1)"),
             ("workspace_language", Json.str "python")]] } := by
  constructor
  · exact C4_send_user_message_spec.1 dockSample "" Json.null Json.null 1 (Or.inl rfl)
  · have h := C4_send_user_message_spec.2 dockSample [] wmSample cwSample "hi"
      Json.null 2 rfl rfl rfl (by decide)
    simpa [dockSample, wmSample] using h

/-- C7: `start_server` on the dock widget is idempotent: in state
`listening` or `connected` it is a no-op (no process, no queues, no
transition); and calling it twice starting from `not_listening`, with the
first spawn succeeding, spawns exactly one bridge process, creates exactly
one queue pair, and emits exactly one state transition, the second call
leaving the state untouched. -/
theorem C7_start_server_idempotent :
    (∀ st spawn, (st.state = SessionState.listening ∨ st.state = SessionState.connected) →
      dock_start_server st spawn = (st, ⟨0, 0, 0⟩)) ∧
    (∀ st spawn₂, st.state = SessionState.not_listening →
      (dock_start_server (dock_start_server st SpawnOutcome.ok).1 spawn₂).1
        = (dock_start_server st SpawnOutcome.ok).1 ∧
      (dock_start_server st SpawnOutcome.ok).2.processes_spawned
        + (dock_start_server (dock_start_server st SpawnOutcome.ok).1 spawn₂).2.processes_spawned
        = 1 ∧
      (dock_start_server st SpawnOutcome.ok).2.queue_pairs_created
        + (dock_start_server (dock_start_server st SpawnOutcome.ok).1 spawn₂).2.queue_pairs_created
        = 1 ∧
      (dock_start_server st SpawnOutcome.ok).2.transitions
        + (dock_start_server (dock_start_server st SpawnOutcome.ok).1 spawn₂).2.transitions
        = 1) := by
  constructor
  · intro st spawn h
    simp [dock_start_server, h]
  · intro st spawn₂ h
    simp [dock_start_server, update_state, h]

/-- Witness for C7: a no-op second call after a successful start from a
concrete `not_listening` state, and a no-op call on the concrete connected
sample state. -/
theorem C7_start_server_idempotent_witness :
    dock_start_server dockSample SpawnOutcome.ok = (dockSample, ⟨0, 0, 0⟩) ∧
    (dock_start_server
        (dock_start_server { dockSample with state := SessionState.not_listening }
          SpawnOutcome.ok).1 SpawnOutcome.ok).1
      = (dock_start_server { dockSample with state := SessionState.not_listening }
          SpawnOutcome.ok).1 := by
  constructor
  · exact C7_start_server_idempotent.1 dockSample SpawnOutcome.ok (Or.inr rfl)
  · exact (C7_start_server_idempotent.2
      { dockSample with state := SessionState.not_listening } SpawnOutcome.ok rfl).1

/-- C8: workspace content equal to the verbatim baseline, or equal to the
baseline after the strip transform, is reported unchanged by
`has_changed`, and an inbound `ai_message` carrying such content does
nothing beyond rendering the message: no diff dialog is shown, the
workspace collaborator's `set` is not called, no exception escapes, and
the baseline snapshot is unchanged. -/
theorem C8_unchanged_content_nothing_happens
    (st : DockState) (wm : WorkspaceManager) (cw : ChatWidget)
    (m ws lang : Json) (env : Env)
    (hwm : st.workspace_manager = some wm) (hcw : st.chat_widget = some cw)
    (heq : pyEqOptStr ws wm.content = true ∨
      pyEqStr ws (strip_content wm.content) = true) :
    has_changed wm ws lang = false ∧
    (on_message_received st (ai_envelope m ws lang) env).2.1 = Effects.nil ∧
    (on_message_received st (ai_envelope m ws lang) env).2.2 = false ∧
    (on_message_received st (ai_envelope m ws lang) env).1.workspace_manager
      = some wm := by
  have hch : has_changed wm ws lang = false := by
    unfold has_changed
    rcases heq with h | h <;> simp [h]
  refine ⟨hch, ?_⟩
  simp [on_message_received, ai_envelope, dictGet, List.find?, pyEqStr,
    append_chat, set_chat_enabled, hwm, hcw, hch]

/-- Witness for C8: the baseline `print(1)` resent verbatim changes
nothing. -/
theorem C8_unchanged_content_nothing_happens_witness :
    has_changed wmSample (Json.str "print(1)") (Json.str "python") = false ∧
    (on_message_received dockSample
        (ai_envelope (Json.str "done") (Json.str "print(1)") (Json.str "python"))
        ⟨true, none⟩).2.1 = Effects.nil ∧
    (on_message_received dockSample
        (ai_envelope (Json.str "done") (Json.str "print(1)") (Json.str "python"))
        ⟨true, none⟩).2.2 = false ∧
    (on_message_received dockSample
        (ai_envelope (Json.str "done") (Json.str "print(1)") (Json.str "python"))
        ⟨true, none⟩).1.workspace_manager = some wmSample :=
  C8_unchanged_content_nothing_happens dockSample wmSample cwSample
    (Json.str "done") (Json.str "print(1)") (Json.str "python") ⟨true, none⟩
    rfl rfl (Or.inl (by decide))

/-- C10: for every baseline, empty or null workspace content is reported
unchanged by `has_changed` — even when the baseline is non-empty and
different — so an inbound `ai_message` with empty or null content never
opens the diff-confirmation dialog and never calls the workspace `set`. -/
theorem C10_empty_content_never_changed
    (wm : WorkspaceManager) (lang : Json) (st : DockState) (cw : ChatWidget)
    (m langJ ws : Json) (env : Env)
    (hws : ws = Json.null ∨ ws = Json.str "")
    (hwm : st.workspace_manager = some wm) (hcw : st.chat_widget = some cw) :
    has_changed wm ws lang = false ∧
    (on_message_received st (ai_envelope m ws langJ) env).2.1 = Effects.nil ∧
    (on_message_received st (ai_envelope m ws langJ) env).2.2 = false := by
  have hemp : ("" : String).isEmpty = true := rfl
  have hch : has_changed wm ws lang = false := by
    rcases hws with h | h <;> subst h <;> simp [has_changed, Json.truthy, hemp]
  have hch' : has_changed wm ws langJ = false := by
    rcases hws with h | h <;> subst h <;> simp [has_changed, Json.truthy, hemp]
  refine ⟨hch, ?_⟩
  simp [on_message_received, ai_envelope, dictGet, List.find?, pyEqStr,
    append_chat, set_chat_enabled, hwm, hcw, hch']

/-- Witness for C10: null content against the non-empty baseline
`print(1)`. -/
theorem C10_empty_content_never_changed_witness :
    has_changed wmSample Json.null (Json.str "python") = false ∧
    (on_message_received dockSample
        (ai_envelope (Json.str "done") Json.null (Json.str "python"))
        ⟨true, none⟩).2.1 = Effects.nil ∧
    (on_message_received dockSample
        (ai_envelope (Json.str "done") Json.null (Json.str "python"))
        ⟨true, none⟩).2.2 = false :=
  C10_empty_content_never_changed wmSample (Json.str "python") dockSample
    cwSample (Json.str "done") (Json.str "python") Json.null ⟨true, none⟩
    (Or.inl rfl) rfl rfl

/-- C3 counterexample: the inbound item `[1, 2]` is no sentinel and
`json.loads` decodes it to a JSON array; `_on_message_received` then calls
`.get` on a list, and the resulting `AttributeError` escapes the poll
handler — contradicting the claim that such items are dropped without any
exception propagating. -/
theorem C3_counterexample :
    (handle_incoming_raw dockSample "[1, 2]"
      (ParseOutcome.ok (Json.arr [Json.num 1, Json.num 2])) ⟨true, none⟩).2.2
      = true := by
  rfl

/-- C3 (amended): for a non-sentinel inbound item of the dock-widget
controller, a JSON decode failure is logged once and the item dropped with
the state unchanged and no escaping exception; a decoded object whose
action is missing or unrecognised is likewise only logged (state unchanged,
nothing escapes); but a decoded payload that is not a JSON object raises
out of the poll handler (state still unchanged).  The older sigmund.py
controller instead classifies a decode failure or non-dict payload as
action `None`, which matches no recognised action and is handled by its
logging branch. -/
theorem C3_invalid_input_handling
    (st : DockState) (raw : String) (env : Env) (fields : List (String × Json))
    (cw : ChatWidget)
    (hdbg : startswith raw "[DEBUG]" = false)
    (hfts : startswith raw "FAILED_TO_START" = false)
    (hcc : raw ≠ "CLIENT_CONNECTED") (hcd : raw ≠ "CLIENT_DISCONNECTED")
    (hcw : st.chat_widget = some cw)
    (haction : ∀ a, dictGet fields "action" Json.null = Json.str a →
      a ∉ (["token", "clear_messages", "cancel_message", "user_message",
        "ai_message"] : List String)) :
    handle_incoming_raw st raw ParseOutcome.decodeError env
      = (st, ⟨1, [], []⟩, false) ∧
    handle_incoming_raw st raw (ParseOutcome.ok (Json.obj fields)) env
      = (st, ⟨1, [], []⟩, false) ∧
    (∀ elems, handle_incoming_raw st raw (ParseOutcome.ok (Json.arr elems)) env
      = (st, Effects.nil, true)) ∧
    sigmund_classify_action ParseOutcome.decodeError = Json.null ∧
    (∀ elems, sigmund_classify_action (ParseOutcome.ok (Json.arr elems))
      = Json.null) := by
  have hp : ∀ x, x ∈ (["token", "clear_messages", "cancel_message",
      "user_message", "ai_message"] : List String) →
      pyEqStr (dictGet fields "action" Json.null) x = false := by
    intro x hx
    rcases hact : dictGet fields "action" Json.null with _ | b | n | a | e | f <;>
      simp [pyEqStr]
    intro h
    apply haction a hact
    rw [h]
    exact hx
  refine ⟨?_, ?_, ?_, rfl, fun elems => rfl⟩
  · simp [handle_incoming_raw, hdbg, hfts, hcc, hcd]
  · have h1 := hp "token" (by simp)
    have h2 := hp "clear_messages" (by simp)
    have h3 := hp "cancel_message" (by simp)
    have h4 := hp "user_message" (by simp)
    have h5 := hp "ai_message" (by simp)
    simp [handle_incoming_raw, on_message_received, hdbg, hfts, hcc, hcd, hcw,
      h1, h2, h3, h4, h5]
  · intro elems
    simp [handle_incoming_raw, on_message_received, hdbg, hfts, hcc, hcd]

/-- Witness for C3 (amended) at the non-sentinel raw item `bogus` with the
unrecognised action `bogus`. -/
theorem C3_invalid_input_handling_witness :
    handle_incoming_raw dockSample "bogus" ParseOutcome.decodeError
      ⟨true, none⟩ = (dockSample, ⟨1, [], []⟩, false) ∧
    handle_incoming_raw dockSample "bogus"
      (ParseOutcome.ok (Json.obj [("action", Json.str "bogus")])) ⟨true, none⟩
      = (dockSample, ⟨1, [], []⟩, false) := by
  have h := C3_invalid_input_handling dockSample "bogus" ⟨true, none⟩
    [("action", Json.str "bogus")] cwSample rfl rfl (by decide) (by decide) rfl
    (by
      intro a ha hmem
      have : Json.str "bogus" = Json.str a := ha
      cases this
      simp at hmem)
  exact ⟨h.1, h.2.1⟩

/-- C9 counterexample: for old content `--a` and new content `b`,
`difflib.unified_diff` yields the lines `--- Original`, `+++ Updated`,
`@@ -1 +1 @@`, `---a`, `+b` (the last two being the removed text `--a`
behind its `-` marker and the added text `b` behind its `+` marker); the
dialog's filter drops not only the two file-header lines but also the
removal line `---a`, so it is not the case that exactly the two header
lines are suppressed and every other diff line kept. -/
theorem C9_counterexample :
    unified_diff_filtered
        ["--- Original", "+++ Updated", "@@ -1 +1 @@", "---a", "+b"]
      = ["@@ -1 +1 @@", "+b"] ∧
    "---a" ∉ unified_diff_filtered
        ["--- Original", "+++ Updated", "@@ -1 +1 @@", "---a", "+b"] := by
  constructor
  · rfl
  · decide

/-- C9 (amended): on changed workspace content the dialog is constructed
with the stripped baseline and the stripped new content and blocks for
accept or cancel; of the unified diff's lines it suppresses every line
starting with `---` or `+++` — which always removes the two file-header
lines, but also any removal line whose text begins with `--` and any
addition line whose text begins with `++` — and keeps every other diff
line, in order. -/
theorem C9_diff_header_suppression
    (diff_lines : List String) (l : String)
    (st : DockState) (wm : WorkspaceManager) (cw : ChatWidget)
    (m lang : Json) (w : String) (env : Env)
    (hwm : st.workspace_manager = some wm) (hcw : st.chat_widget = some cw)
    (hch : has_changed wm (Json.str w) lang = true) :
    "--- Original" ∉ unified_diff_filtered diff_lines ∧
    "+++ Updated" ∉ unified_diff_filtered diff_lines ∧
    (l ∈ unified_diff_filtered diff_lines ↔
      l ∈ diff_lines ∧ startswith l "---" = false ∧ startswith l "+++" = false) ∧
    List.Sublist (unified_diff_filtered diff_lines) diff_lines ∧
    (on_message_received st (ai_envelope m (Json.str w) lang) env).2.1.dialogs
      = [⟨m, strip_content wm.content, strip_content (some w)⟩] := by
  refine ⟨?_, ?_, ?_, List.filter_sublist diff_lines, ?_⟩
  · intro hmem
    have h2 := (List.mem_filter.mp hmem).2
    rw [show startswith "--- Original" "---" = true from by decide] at h2
    simp at h2
  · intro hmem
    have h2 := (List.mem_filter.mp hmem).2
    rw [show startswith "+++ Updated" "+++" = true from by decide] at h2
    simp at h2
  · constructor
    · intro hmem
      have h1 := (List.mem_filter.mp hmem).1
      have h2 := (List.mem_filter.mp hmem).2
      simp only [Bool.and_eq_true, Bool.not_eq_true'] at h2
      exact ⟨h1, h2.1, h2.2⟩
    · intro ⟨h1, h2, h3⟩
      exact List.mem_filter.mpr ⟨h1, by simp [h2, h3]⟩
  · simp [on_message_received, ai_envelope, dictGet, List.find?, pyEqStr,
      append_chat, set_chat_enabled, hwm, hcw, hch, strip_contentJ]
    rcases env.dialog_accepted with _ | _
    · rfl
    · rcases henv : env.set_raises with _ | tb <;> simp [henv] <;>
        split <;> simp [send_user_message, error_user_message]

/-- Witness for C9 (amended) on a one-line diff and the changed proposal
`print(2)` against the baseline `print(1)`. -/
theorem C9_diff_header_suppression_witness :
    "--- Original" ∉ unified_diff_filtered ["@@ -1 +1 @@"] ∧
    ("@@ -1 +1 @@" ∈ unified_diff_filtered ["@@ -1 +1 @@"] ↔
      "@@ -1 +1 @@" ∈ ["@@ -1 +1 @@"] ∧
      startswith "@@ -1 +1 @@" "---" = false ∧
      startswith "@@ -1 +1 @@" "+++" = false) ∧
    (on_message_received dockSample
        (ai_envelope (Json.str "done") (Json.str "print(2)") (Json.str "python"))
        ⟨true, none⟩).2.1.dialogs
      = [⟨Json.str "done", strip_content wmSample.content,
          strip_content (some "print(2)")⟩] := by
  have h := C9_diff_header_suppression ["@@ -1 +1 @@"] "@@ -1 +1 @@" dockSample
    wmSample cwSample (Json.str "done") (Json.str "python") "print(2)"
    ⟨true, none⟩ rfl rfl (by decide)
  exact ⟨h.1, h.2.2.1, h.2.2.2.2⟩

/-! ## Theorems about the bounded retry loop -/

/-- Error reports are never empty, so a resubmission is never dropped by
the empty-text guard of `send_user_message`. -/
theorem error_user_message_ne_empty (tb : String) : error_user_message tb ≠ "" := by
  intro h
  have hd := congrArg String.data h
  simp [error_user_message] at hd

/-- One accepted `ai_message` with failing `set` at exhausted budget: the
error report is appended, then the terminal append evaluates the unbound
name `_` and raises `NameError`, so the exception escapes with no terminal
message appended and no resubmission enqueued. -/
theorem failing_cycle_exhausted
    (state : SessionState) (proc : Bool) (mq : Option (List String))
    (q : List Json) (wm : WorkspaceManager) (enab : Bool)
    (msgs : List (String × Json)) (tok : Option Json) (pt : Bool)
    (m lang : Json) (w tb : String)
    (hch : has_changed wm (Json.str w) lang = true) :
    on_message_received
        ⟨state, proc, mq, some q, some wm, some ⟨enab, msgs⟩, 0, tok, pt⟩
        (ai_envelope m (Json.str w) lang) ⟨true, some tb⟩
      = (⟨state, proc, mq, some q, some wm,
          some ⟨true, msgs ++ [("ai_message", m),
            ("user_message", Json.str (error_user_message tb))]⟩, 0, tok, pt⟩,
         ⟨0, [⟨m, strip_content wm.content, strip_content (some w)⟩],
          [(Json.str w, lang)]⟩, true) := by
  simp [on_message_received, ai_envelope, dictGet, List.find?, pyEqStr,
    append_chat, set_chat_enabled, hch, strip_contentJ]

/-- One accepted `ai_message` with failing `set` and remaining budget
`r + 1`: the error report is appended, exactly one resubmission envelope is
enqueued, the chat is disabled again, and the budget drops to `r`. -/
theorem failing_cycle_resubmit
    (state : SessionState) (proc : Bool) (mq : Option (List String))
    (q : List Json) (wm : WorkspaceManager) (enab : Bool)
    (msgs : List (String × Json)) (tok : Option Json) (pt : Bool)
    (m lang : Json) (w tb : String) (r : Nat)
    (hch : has_changed wm (Json.str w) lang = true) :
    on_message_received
        ⟨state, proc, mq, some q, some wm, some ⟨enab, msgs⟩, r + 1, tok, pt⟩
        (ai_envelope m (Json.str w) lang) ⟨true, some tb⟩
      = (⟨state, proc, mq,
          some (q ++ [resub_envelope (error_user_message tb) (Json.str w) lang]),
          some wm,
          some ⟨false, msgs ++ [("ai_message", m),
            ("user_message", Json.str (error_user_message tb))]⟩,
          r, tok, pt⟩,
         ⟨0, [⟨m, strip_content wm.content, strip_content (some w)⟩],
          [(Json.str w, lang)]⟩, false) := by
  simp [on_message_received, ai_envelope, dictGet, List.find?, pyEqStr,
    append_chat, set_chat_enabled, hch, strip_contentJ, send_user_message,
    error_user_message_ne_empty tb, resub_envelope]

/-- Closed form of `failureRun` when every `set` fails and every diff is
accepted: with budget `k` and fuel `k`, the run enqueues exactly `k`
resubmission envelopes, appends the failure chat trace, leaves the budget
at 0, shows one dialog and one `set` call per handled message, and ends
with an exception escaping the poll handler (the `NameError` of the
budget-exhausted step). -/
theorem failureRun_spec
    (state : SessionState) (proc : Bool) (mq : Option (List String))
    (wm : WorkspaceManager) (tok : Option Json) (pt : Bool)
    (m lang : Json) (w tb : String)
    (hch : has_changed wm (Json.str w) lang = true) :
    ∀ (k : Nat) (q : List Json) (enab : Bool) (msgs : List (String × Json)),
    failureRun ⟨state, proc, mq, some q, some wm, some ⟨enab, msgs⟩, k, tok, pt⟩
        (ai_envelope m (Json.str w) lang) ⟨true, some tb⟩ k
      = (⟨state, proc, mq,
          some (q ++ List.replicate k
            (resub_envelope (error_user_message tb) (Json.str w) lang)),
          some wm,
          some ⟨true, msgs ++ failure_chat_trace m (error_user_message tb) k⟩,
          0, tok, pt⟩,
         ⟨0, List.replicate (k + 1)
            ⟨m, strip_content wm.content, strip_content (some w)⟩,
          List.replicate (k + 1) (Json.str w, lang)⟩, true) := by
  intro k
  induction k with
  | zero =>
    intro q enab msgs
    simp [failureRun, failing_cycle_exhausted state proc mq q wm enab msgs tok pt
      m lang w tb hch, failure_chat_trace]
  | succ n ih =>
    intro q enab msgs
    rw [failureRun]
    rw [failing_cycle_resubmit state proc mq q wm enab msgs tok pt m lang w tb n
      hch]
    rw [ih]
    simp [failure_chat_trace, Effects.app, List.replicate_succ]

/-- The failure chat trace never contains the terminal message: the
append that would produce it raises before running. -/
theorem failure_chat_trace_filter (m : Json) (err : String) (k : Nat)
    (hm : is_terminal_msg ("ai_message", m) = false) :
    (failure_chat_trace m err k).filter is_terminal_msg = [] := by
  have h1 : is_terminal_msg ("user_message", Json.str err) = false := by
    show ("user_message" == "ai_message" && err == max_attempts_msg) = false
    rw [show ("user_message" == "ai_message") = false from by decide]
    rfl
  induction k with
  | zero => simp [failure_chat_trace, List.filter_cons, hm, h1]
  | succ n ih => simp [failure_chat_trace, List.filter_cons, hm, h1, ih]

/-- The failure chat trace ends with the error report of the exhausted
step, not with a terminal message. -/
theorem failure_chat_trace_getLast (m : Json) (err : String) (k : Nat) :
    (failure_chat_trace m err k).getLast?
      = some ("user_message", Json.str err) := by
  induction k with
  | zero => rfl
  | succ n ih =>
    rw [failure_chat_trace, List.getLast?_cons_cons]
    cases n with
    | zero => rw [failure_chat_trace, List.getLast?_cons_cons]; exact ih
    | succ i => rw [failure_chat_trace, List.getLast?_cons_cons]
                exact ih

/-- The failure chat trace is never empty. -/
theorem failure_chat_trace_ne_nil (m : Json) (err : String) (k : Nat) :
    failure_chat_trace m err k ≠ [] := by
  cases k <;> simp [failure_chat_trace]

/-- C1 (code bug): with retry budget `k` and a permanently failing
workspace `set`, accepting the diff of each inbound `ai_message` does
produce exactly `k` automatic resubmissions via `send_user_message` — each
handler step decrementing the budget by exactly one, so never `k + 1` and
never an unbounded loop — but the budget-exhausted step then raises
`NameError` (the terminal append on dock_widget.py line 260 evaluates the
unbound name `_`) out of the poll handler: no terminal
`Maximum number of attempts exceeded.` agent message is ever appended, the
last chat message being the final error report.  This diverges from the
claim's (and the spec's) terminal message, which the sibling sigmund.py —
binding `_` via `translation_context` — does append. -/
theorem C1_retry_exhaustion_raises
    (state : SessionState) (proc : Bool) (mq : Option (List String))
    (q : List Json) (wm : WorkspaceManager) (enab : Bool)
    (msgs : List (String × Json)) (tok : Option Json) (pt : Bool)
    (m lang : Json) (w tb : String) (k : Nat)
    (hch : has_changed wm (Json.str w) lang = true)
    (hm : is_terminal_msg ("ai_message", m) = false)
    (hmsgs : msgs.filter is_terminal_msg = []) :
    (failureRun ⟨state, proc, mq, some q, some wm, some ⟨enab, msgs⟩, k, tok, pt⟩
        (ai_envelope m (Json.str w) lang) ⟨true, some tb⟩ k).1.to_server_queue
      = some (q ++ List.replicate k
          (resub_envelope (error_user_message tb) (Json.str w) lang)) ∧
    (failureRun ⟨state, proc, mq, some q, some wm, some ⟨enab, msgs⟩, k, tok, pt⟩
        (ai_envelope m (Json.str w) lang) ⟨true, some tb⟩ k).1.retry = 0 ∧
    (failureRun ⟨state, proc, mq, some q, some wm, some ⟨enab, msgs⟩, k, tok, pt⟩
        (ai_envelope m (Json.str w) lang) ⟨true, some tb⟩ k).1.chat_widget
      = some ⟨true, msgs ++ failure_chat_trace m (error_user_message tb) k⟩ ∧
    ((msgs ++ failure_chat_trace m (error_user_message tb) k).filter
        is_terminal_msg).length = 0 ∧
    (msgs ++ failure_chat_trace m (error_user_message tb) k).getLast?
      = some ("user_message", Json.str (error_user_message tb)) ∧
    (failureRun ⟨state, proc, mq, some q, some wm, some ⟨enab, msgs⟩, k, tok, pt⟩
        (ai_envelope m (Json.str w) lang) ⟨true, some tb⟩ k).2.2 = true ∧
    (∀ r, (on_message_received
        ⟨state, proc, mq, some q, some wm, some ⟨enab, msgs⟩, r + 1, tok, pt⟩
        (ai_envelope m (Json.str w) lang) ⟨true, some tb⟩).1.retry = r) := by
  have hrun := failureRun_spec state proc mq wm tok pt m lang w tb hch k q enab
    msgs
  refine ⟨?_, ?_, ?_, ?_, ?_, ?_, ?_⟩
  · rw [hrun]
  · rw [hrun]
  · rw [hrun]
  · rw [List.filter_append, hmsgs, failure_chat_trace_filter m _ k hm]
    rfl
  · rw [List.getLast?_append_of_ne_nil _ (failure_chat_trace_ne_nil m _ k)]
    exact failure_chat_trace_getLast m _ k
  · rw [hrun]
  · intro r
    rw [failing_cycle_resubmit state proc mq q wm enab msgs tok pt m lang w tb r
      hch]

/-- Witness for C1 with budget 2 on a concrete connected state: two
resubmissions, budget 0, no terminal message, the final error report last,
and the exhausted step's exception escaping. -/
theorem C1_retry_exhaustion_raises_witness :
    (failureRun ⟨SessionState.connected, true, some [], some [], some wmSample,
        some ⟨true, []⟩, 2, none, true⟩
        (ai_envelope (Json.str "done") (Json.str "print(2)") (Json.str "python"))
        ⟨true, some "Trace"⟩ 2).1.to_server_queue
      = some ([] ++ List.replicate 2
          (resub_envelope (error_user_message "Trace") (Json.str "print(2)")
            (Json.str "python"))) ∧
    (failureRun ⟨SessionState.connected, true, some [], some [], some wmSample,
        some ⟨true, []⟩, 2, none, true⟩
        (ai_envelope (Json.str "done") (Json.str "print(2)") (Json.str "python"))
        ⟨true, some "Trace"⟩ 2).1.retry = 0 ∧
    (([] ++ failure_chat_trace (Json.str "done") (error_user_message "Trace") 2).filter
        is_terminal_msg).length = 0 ∧
    ([] ++ failure_chat_trace (Json.str "done") (error_user_message "Trace") 2).getLast?
      = some ("user_message", Json.str (error_user_message "Trace")) ∧
    (failureRun ⟨SessionState.connected, true, some [], some [], some wmSample,
        some ⟨true, []⟩, 2, none, true⟩
        (ai_envelope (Json.str "done") (Json.str "print(2)") (Json.str "python"))
        ⟨true, some "Trace"⟩ 2).2.2 = true := by
  have h := C1_retry_exhaustion_raises SessionState.connected true (some []) []
    wmSample true [] none true (Json.str "done") (Json.str "python") "print(2)"
    "Trace" 2 (by decide) (by decide) rfl
  exact ⟨h.1, h.2.1, h.2.2.2.1, h.2.2.2.2.1, h.2.2.2.2.2.1⟩

end Sigmund
